import Mathlib

/-!
# Rubygame `Surface` (ext/rubygame/surface.c)

A shallow embedding of the C functions behind `Rubygame::Surface`:
`set_alpha`, `colorkey`, `set_colorkey`, `blit`, `fill` and `get_at`.

* C `int` is a 32-bit two's-complement integer, held in `Int`; arithmetic that
  may leave the range is wrapped with `wrapInt`.  `Uint8`/`Uint32` values are
  held in `Nat` and reduced with `% 2^8` / `% 2^32` where the C code narrows.
* `rb_raise` is modelled by `Except.error`; functions that touch the surface
  return the surface as it is when control leaves the function, together with
  the Ruby result.
* Everything the file calls but does not define (SDL, the `FIX2UINT` macro of
  ruby.h, `make_rect`, the byte order) is collected in `Env`; `Model` is a
  reference model of the SDL calls.
-/

namespace Rubygame

/-! ## Data model -/

/-- Ruby exceptions raised by the code (`rb_raise`, or the conversions of the Ruby C API),
plus `Undefined` for executions that leave defined C behaviour (reading outside the
pixel buffer, reading `argv` past `argc`, treating a non-Array as an Array). -/
inductive Exn where
  | ArgError
  | IndexError
  | TypeError
  | RangeError
  | SDLError
  | Undefined
  deriving DecidableEq, Repr

/-- The fields of `SDL_PixelFormat` used by the code. -/
structure SDL_PixelFormat where
  BitsPerPixel : Nat
  BytesPerPixel : Nat
  Rloss : Nat
  Gloss : Nat
  Bloss : Nat
  Aloss : Nat
  Rshift : Nat
  Gshift : Nat
  Bshift : Nat
  Ashift : Nat
  Rmask : Nat
  Gmask : Nat
  Bmask : Nat
  Amask : Nat
  colorkey : Nat
  alpha : Nat
  deriving DecidableEq, Repr

/-- The fields of `SDL_Surface` used by the code.  `pixels` is the byte buffer,
`locked` the lock count kept by SDL. -/
structure SDL_Surface where
  flags : Nat
  format : SDL_PixelFormat
  w : Int
  h : Int
  pitch : Nat
  pixels : List Nat
  offset : Nat
  locked : Nat
  deriving DecidableEq, Repr

/-- An `SDL_Rect`. -/
structure SDL_Rect where
  x : Int
  y : Int
  w : Int
  h : Int
  deriving DecidableEq, Repr

/-- The Ruby values the functions receive and return: `nil`, an Integer, an Array of
Integers, and a wrapped `SDL_Surface` (`Data_Wrap_Struct`). -/
inductive VALUE where
  | Qnil
  | fixnum (n : Int)
  | ary (elems : List Int)
  | data (surf : SDL_Surface)
  deriving DecidableEq, Repr

deriving instance DecidableEq for Except

/-! ## C integers -/

/-- Conversion of an `int` to `Uint32`. -/
def toUint32 (i : Int) : Nat := (i % 2 ^ 32).toNat

/-- Conversion of an `int` to `Uint8`. -/
def toUint8 (i : Int) : Nat := (i % 2 ^ 8).toNat

/-- The predicate: `i` is representable as a 32-bit signed `int`. -/
def isInt32 (i : Int) : Prop := -(2 ^ 31) ≤ i ∧ i < 2 ^ 31

instance (i : Int) : Decidable (isInt32 i) := by unfold isInt32; infer_instance

/-! ## Ruby C API -/

/-- The expression `argv[i]`; reading past `argc` is undefined. -/
def arg (argv : List VALUE) (i : Nat) : Except Exn VALUE :=
  match argv[i]? with
  | some v => .ok v
  | none => .error .Undefined

/-- The conversion `NUM2INT`: the `int` value of an Integer, `RangeError` when it does not fit,
`TypeError` for a value that is not a number. -/
def NUM2INT (v : VALUE) : Except Exn Int :=
  match v with
  | .fixnum n => if -(2 ^ 31) ≤ n ∧ n < 2 ^ 31 then .ok n else .error .RangeError
  | _ => .error .TypeError

/-- The expression `NUM2INT(argc)` of line 488: the macro applied to the C `int` `argc`, whose
bits it reads as a `VALUE`.  An odd word is the Fixnum `(w - 1) / 2` and converts; the words
0, 2 and 4 are `false`, `true` and `nil`, which raise `TypeError`; no other even word is a
value held by the interpreter, and converting it is undefined. -/
def NUM2INT_word (w : Nat) : Except Exn Int :=
  if w % 2 = 1 then .ok ((w / 2 : Nat) : Int)
  else if w = 0 ∨ w = 2 ∨ w = 4 then .error .TypeError
  else .error .Undefined

/-- The call `rb_ary_entry(ary, i)` for `i ≥ 0`: the element, or `nil` past the end. -/
def rb_ary_entry (v : VALUE) (i : Nat) : Except Exn VALUE :=
  match v with
  | .ary l =>
    match l[i]? with
    | some n => .ok (.fixnum n)
    | none => .ok .Qnil
  | _ => .error .Undefined

def SDL_HWSURFACE : Nat := 0x00000001
def SDL_ASYNCBLIT : Nat := 0x00000004
def SDL_SRCCOLORKEY : Nat := 0x00001000
def SDL_RLEACCELOK : Nat := 0x00002000
def SDL_RLEACCEL : Nat := 0x00004000
def SDL_SRCALPHA : Nat := 0x00010000
def SDL_ALPHA_OPAQUE : Nat := 255

/-! ## The environment of surface.c -/

/-- Everything surface.c uses and does not define: the byte order of the platform, the
`FIX2UINT` macro of ruby.h, `make_rect` of the extension, and the SDL calls.  An SDL call
that updates a surface returns the updated surface (after its `int` status, when the
code tests it). -/
structure Env where
  bigEndian : Bool
  FIX2UINT : VALUE → Except Exn Nat
  make_rect : Int → Int → Int → Int → SDL_Rect
  SDL_MapRGB : SDL_PixelFormat → Nat → Nat → Nat → Nat
  SDL_MapRGBA : SDL_PixelFormat → Nat → Nat → Nat → Nat → Nat
  SDL_GetRGB : Nat → SDL_PixelFormat → Nat × Nat × Nat
  SDL_GetRGBA : Nat → SDL_PixelFormat → Nat × Nat × Nat × Nat
  SDL_SetAlpha : SDL_Surface → Nat → Nat → Int × SDL_Surface
  SDL_SetColorKey : SDL_Surface → Nat → Nat → Int × SDL_Surface
  SDL_FillRect : SDL_Surface → Option SDL_Rect → Nat → SDL_Surface
  SDL_BlitSurface : SDL_Surface → SDL_Rect → SDL_Surface → SDL_Rect → SDL_Surface
  SDL_MUSTLOCK : SDL_Surface → Bool
  SDL_LockSurface : SDL_Surface → Int × SDL_Surface
  SDL_UnlockSurface : SDL_Surface → SDL_Surface

/-! ## `Surface#set_alpha` -/

/-- The function `rbgm_surface_set_alpha`, lines 240-266.  `surf` is the surface wrapped by
`self`; the result `.ok ()` stands for `return self`. -/
def rbgm_surface_set_alpha (env : Env) (argv : List VALUE) (surf : SDL_Surface) :
    SDL_Surface × Except Exn Unit :=
  let argc := argv.length
  let flags0 : Nat := SDL_SRCALPHA
  -- switch(argc): case 2 falls through into case 1
  let sw : Except Exn (Nat × Nat) :=
    if argc = 2 then do
      let f ← NUM2INT (← arg argv 1)
      let temp ← NUM2INT (← arg argv 0)
      let alpha := if temp < 0 then 0 else if temp > 255 then 255 else toUint8 temp
      pure (toUint32 f, alpha)
    else if argc = 1 then do
      let temp ← NUM2INT (← arg argv 0)
      let alpha := if temp < 0 then 0 else if temp > 255 then 255 else toUint8 temp
      pure (flags0, alpha)
    else .error .ArgError
  match sw with
  | .error e => (surf, .error e)
  | .ok (flags, alpha) =>
    let r := env.SDL_SetAlpha surf flags alpha
    if r.1 ≠ 0 then (r.2, .error .SDLError) else (r.2, .ok ())

/-! ## `Surface#colorkey` and `Surface#set_colorkey` -/

/-- The function `rbgm_surface_get_colorkey`, lines 278-290. -/
def rbgm_surface_get_colorkey (env : Env) (surf : SDL_Surface) : VALUE :=
  let colorkey := surf.format.colorkey
  if colorkey = 0 then .Qnil
  else
    let rgb := env.SDL_GetRGB colorkey surf.format
    .ary [(rgb.1 : Int), (rgb.2.1 : Int), (rgb.2.2 : Int)]

/-- The function `rbgm_surface_set_colorkey`, lines 308-339.  The result `.ok ()` stands for
`return self`. -/
def rbgm_surface_set_colorkey (env : Env) (argv : List VALUE) (surf : SDL_Surface) :
    SDL_Surface × Except Exn Unit :=
  let argc := argv.length
  let fc : Except Exn (Nat × Nat) := do
    let a0 ← arg argv 0
    if a0 = .Qnil then
      pure (0, 0)
    else
      let flag ← (if argc > 1 then do
                    let f ← NUM2INT (← arg argv 1)
                    pure (toUint32 f)
                  else pure SDL_SRCCOLORKEY)
      let r ← NUM2INT (← rb_ary_entry a0 0)
      let g ← NUM2INT (← rb_ary_entry a0 1)
      let b ← NUM2INT (← rb_ary_entry a0 2)
      pure (flag, env.SDL_MapRGB surf.format (toUint8 r) (toUint8 g) (toUint8 b))
  match fc with
  | .error e => (surf, .error e)
  | .ok (flag, color) =>
    let r := env.SDL_SetColorKey surf flag color
    if r.1 ≠ 0 then (r.2, .error .SDLError) else (r.2, .ok ())

/-! ## `Surface#blit` -/

/-- The function `rbgm_surface_fill`, lines 444-492.  The result `.ok ()` stands for
`return self`. -/
def rbgm_surface_fill (env : Env) (argv : List VALUE) (surf : SDL_Surface) :
    SDL_Surface × Except Exn Unit :=
  let argc := argv.length
  if argc < 1 then (surf, .error .ArgError)
  else
    let col : Except Exn Nat := do
      let a0 ← arg argv 0
      let r ← env.FIX2UINT (← rb_ary_entry a0 0)
      let g ← env.FIX2UINT (← rb_ary_entry a0 1)
      let b ← env.FIX2UINT (← rb_ary_entry a0 2)
      match a0 with
      | .ary l =>
        if l.length > 3 then do
          let a ← env.FIX2UINT (← rb_ary_entry a0 3)
          pure (env.SDL_MapRGBA surf.format (r % 2 ^ 8) (g % 2 ^ 8) (b % 2 ^ 8) (a % 2 ^ 8))
        else
          pure (env.SDL_MapRGB surf.format (r % 2 ^ 8) (g % 2 ^ 8) (b % 2 ^ 8))
      | _ => .error .Undefined
    match col with
    | .error e => (surf, .error e)
    | .ok color =>
      if argc = 1 then
        (env.SDL_FillRect surf none color, .ok ())
      else if argc = 2 then
        let mk : Except Exn SDL_Rect := do
          let a1 ← arg argv 1
          let x ← NUM2INT (← rb_ary_entry a1 0)
          let y ← NUM2INT (← rb_ary_entry a1 1)
          let w ← NUM2INT (← rb_ary_entry a1 2)
          let h ← NUM2INT (← rb_ary_entry a1 3)
          pure (env.make_rect x y w h)
        match mk with
        | .error e => (surf, .error e)
        | .ok rect => (env.SDL_FillRect surf (some rect) color, .ok ())
      else
        -- default: the argument `NUM2INT(argc)` is evaluated before `rb_raise` is called
        match NUM2INT_word argc with
        | .error e => (surf, .error e)
        | .ok _ => (surf, .error .ArgError)

/-! ## `Surface#get_at` -/

/-- The byte `p[off]` of the pixel buffer; an offset outside the buffer is undefined. -/
def readByte (pixels : List Nat) (off : Int) : Except Exn Nat :=
  if off < 0 then .error .Undefined
  else
    match pixels[off.toNat]? with
    | some b => .ok b
    | none => .error .Undefined

/-- The three-byte case of the switch, lines 561-565, on the bytes `pix[0]`, `pix[1]`, `pix[2]`. -/
def color3 (bigEndian : Bool) (pix0 pix1 pix2 : Nat) : Nat :=
  if bigEndian then pix2 + (pix1 <<< 8) + (pix0 <<< 16)
  else pix0 + (pix1 <<< 8) + (pix2 <<< 16)

/-- The load `*(Uint16 *)p` from the bytes at `p`, in the byte order of the platform. -/
def loadUint16 (bigEndian : Bool) (b0 b1 : Nat) : Nat :=
  if bigEndian then (b0 <<< 8) + b1 else b0 + (b1 <<< 8)

/-- The load `*(Uint32 *)p` from the bytes at `p`, in the byte order of the platform. -/
def loadUint32 (bigEndian : Bool) (b0 b1 b2 b3 : Nat) : Nat :=
  if bigEndian then (b0 <<< 24) + (b1 <<< 16) + (b2 <<< 8) + b3
  else b0 + (b1 <<< 8) + (b2 <<< 16) + (b3 <<< 24)

/-- The switch on `BytesPerPixel` of `rbgm_surface_getat`, lines 549-570: the raw value
`color` read at `(x, y)`. -/
def getat_color (env : Env) (surf : SDL_Surface) (x y : Int) : Except Exn Nat :=
  let pixels := surf.pixels
  if surf.format.BytesPerPixel = 1 then
    readByte pixels (y * surf.pitch + x)
  else if surf.format.BytesPerPixel = 2 then do
    let b0 ← readByte pixels (y * surf.pitch + x * 2)
    let b1 ← readByte pixels (y * surf.pitch + x * 2 + 1)
    pure (loadUint16 env.bigEndian b0 b1)
  else if surf.format.BytesPerPixel = 3 then do
    let pix0 ← readByte pixels (y * surf.pitch + x * 3)
    let pix1 ← readByte pixels (y * surf.pitch + x * 3 + 1)
    let pix2 ← readByte pixels (y * surf.pitch + x * 3 + 2)
    pure (color3 env.bigEndian pix0 pix1 pix2)
  else do
    let b0 ← readByte pixels (y * surf.pitch + x * 4)
    let b1 ← readByte pixels (y * surf.pitch + x * 4 + 1)
    let b2 ← readByte pixels (y * surf.pitch + x * 4 + 2)
    let b3 ← readByte pixels (y * surf.pitch + x * 4 + 3)
    pure (loadUint32 env.bigEndian b0 b1 b2 b3)

/-- The loop `while(locked>1) { SDL_UnlockSurface(surf); locked -= 1; }`, lines 575-579. -/
def unlockLoop (env : Env) : Nat → SDL_Surface → SDL_Surface
  | 0, surf => surf
  | locked + 1, surf =>
    if locked + 1 > 1 then unlockLoop env locked (env.SDL_UnlockSurface surf) else surf

/-- The coordinates `(x, y)` taken from the arguments, lines 521-530. -/
def getat_xy (argv : List VALUE) : Except Exn (Int × Int) :=
  if argv.length = 1 then do
    let x ← NUM2INT (← rb_ary_entry (← arg argv 0) 0)
    let y ← NUM2INT (← rb_ary_entry (← arg argv 0) 1)
    pure (x, y)
  else do
    let x ← NUM2INT (← arg argv 0)
    let y ← NUM2INT (← arg argv 1)
    pure (x, y)

/-- The function `rbgm_surface_getat`, lines 507-589.  Returns the surface as it is left
and the Array `[r, g, b, a]`. -/
def rbgm_surface_getat (env : Env) (argv : List VALUE) (surf : SDL_Surface) :
    SDL_Surface × Except Exn VALUE :=
  let argc := argv.length
  if argc > 2 then (surf, .error .ArgError)
  else
    match getat_xy argv with
    | .error e => (surf, .error e)
    | .ok (x, y) =>
      if x < 0 ∨ x > surf.w then (surf, .error .IndexError)
      else if y < 0 ∨ y > surf.h then (surf, .error .IndexError)
      else
        -- lock surface
        let lk : SDL_Surface × Except Exn Nat :=
          if env.SDL_MUSTLOCK surf then
            let r := env.SDL_LockSurface surf
            if r.1 = 0 then (r.2, .ok (0 + 1)) else (r.2, .error .SDLError)
          else (surf, .ok 0)
        match lk with
        | (surf1, .error e) => (surf1, .error e)
        | (surf1, .ok locked) =>
          match getat_color env surf1 x y with
          | .error e => (surf1, .error e)
          | .ok color =>
            -- recursively unlock surface
            let surf2 := unlockLoop env locked surf1
            if color = 0 then
              (surf2, .ok (.ary [0, 0, 0, 0]))
            else
              let c := env.SDL_GetRGBA color surf2.format
              (surf2, .ok (.ary [(c.1 : Int), (c.2.1 : Int), (c.2.2.1 : Int), (c.2.2.2 : Int)]))

/-- The surface on which `get_at` reads its pixel (lines 540-546): `surf` after
`SDL_LockSurface` when `SDL_MUSTLOCK` holds, `surf` itself otherwise. -/
def lockedFor (env : Env) (surf : SDL_Surface) : SDL_Surface :=
  if env.SDL_MUSTLOCK surf then (env.SDL_LockSurface surf).2 else surf

/-! ## Reference model of the backend

The SDL calls, as the specification describes the backend: mask-and-shift colour packing
and its inverse, a fill that writes the packed value to every covered pixel, setters that
store the transparency state, and a lock count. -/

namespace Model

/-- Modelled from the spec: `SDL_MapRGB` belongs to SDL, not to src/; "scales/shifts each
8-bit component into its mask's bit position", the alpha bits being those of the mask. -/
def SDL_MapRGB (fmt : SDL_PixelFormat) (r g b : Nat) : Nat :=
  ((r >>> fmt.Rloss) <<< fmt.Rshift) ||| ((g >>> fmt.Gloss) <<< fmt.Gshift)
    ||| ((b >>> fmt.Bloss) <<< fmt.Bshift) ||| fmt.Amask

/-- Modelled from the spec: `SDL_MapRGBA` belongs to SDL, not to src/; as `SDL_MapRGB`, with
the alpha component shifted into the alpha mask. -/
def SDL_MapRGBA (fmt : SDL_PixelFormat) (r g b a : Nat) : Nat :=
  ((r >>> fmt.Rloss) <<< fmt.Rshift) ||| ((g >>> fmt.Gloss) <<< fmt.Gshift)
    ||| ((b >>> fmt.Bloss) <<< fmt.Bshift) ||| (((a >>> fmt.Aloss) <<< fmt.Ashift) &&& fmt.Amask)

/-- One component of a packed value: masked, shifted down, scaled back to 8 bits. -/
def unpackChannel (pixel mask shift loss : Nat) : Nat :=
  (((pixel &&& mask) >>> shift) <<< loss) % 2 ^ 8

/-- Modelled from the spec: `SDL_GetRGB` belongs to SDL, not to src/; "inverse of pack". -/
def SDL_GetRGB (pixel : Nat) (fmt : SDL_PixelFormat) : Nat × Nat × Nat :=
  (unpackChannel pixel fmt.Rmask fmt.Rshift fmt.Rloss,
   unpackChannel pixel fmt.Gmask fmt.Gshift fmt.Gloss,
   unpackChannel pixel fmt.Bmask fmt.Bshift fmt.Bloss)

/-- Modelled from the spec: `SDL_GetRGBA` belongs to SDL, not to src/; "inverse of pack; when
the format has no alpha mask, a is reported as fully opaque (255)". -/
def SDL_GetRGBA (pixel : Nat) (fmt : SDL_PixelFormat) : Nat × Nat × Nat × Nat :=
  (unpackChannel pixel fmt.Rmask fmt.Rshift fmt.Rloss,
   unpackChannel pixel fmt.Gmask fmt.Gshift fmt.Gloss,
   unpackChannel pixel fmt.Bmask fmt.Bshift fmt.Bloss,
   if fmt.Amask ≠ 0 then unpackChannel pixel fmt.Amask fmt.Ashift fmt.Aloss
   else SDL_ALPHA_OPAQUE)

/-- Modelled from the spec: `SDL_SetAlpha` belongs to SDL, not to src/; it "stores alpha and
alphaFlagEnabled accordingly" and reports success. -/
def SDL_SetAlpha (surf : SDL_Surface) (flag value : Nat) : Int × SDL_Surface :=
  let flags :=
    if flag &&& SDL_SRCALPHA ≠ 0 then surf.flags ||| SDL_SRCALPHA
    else surf.flags &&& (2 ^ 32 - 1 - SDL_SRCALPHA)
  (0, { surf with flags := flags, format := { surf.format with alpha := value } })

/-- Modelled from the spec: `SDL_SetColorKey` belongs to SDL, not to src/; with the colorkey
flag it stores the key and enables the flag, without it it clears both, and it reports
success. -/
def SDL_SetColorKey (surf : SDL_Surface) (flag key : Nat) : Int × SDL_Surface :=
  if flag &&& SDL_SRCCOLORKEY ≠ 0 then
    (0, { surf with flags := surf.flags ||| SDL_SRCCOLORKEY,
                    format := { surf.format with colorkey := key } })
  else
    (0, { surf with flags := surf.flags &&& (2 ^ 32 - 1 - (SDL_SRCCOLORKEY ||| SDL_RLEACCELOK)),
                    format := { surf.format with colorkey := 0 } })

/-- The byte stored at position `k` of a pixel of `bpp` bytes holding `color`, in the byte
order of the platform. -/
def storeByte (bigEndian : Bool) (bpp color k : Nat) : Nat :=
  if bigEndian then (color >>> (8 * (bpp - 1 - k))) % 2 ^ 8
  else (color >>> (8 * k)) % 2 ^ 8

/-- Modelled from the spec: `SDL_FillRect` belongs to SDL, not to src/; "rect=None fills the
entire surface; otherwise fills exactly the given rectangle", clipped against the surface
bounds: every byte of a covered pixel receives its byte of the packed value. -/
def SDL_FillRect (bigEndian : Bool) (dst : SDL_Surface) (dstrect : Option SDL_Rect)
    (color : Nat) : SDL_Surface :=
  let r : SDL_Rect :=
    match dstrect with
    | none => { x := 0, y := 0, w := dst.w, h := dst.h }
    | some r => r
  let x0 := max r.x 0
  let y0 := max r.y 0
  let x1 := min (r.x + r.w) dst.w
  let y1 := min (r.y + r.h) dst.h
  let bpp := dst.format.BytesPerPixel
  { dst with
    pixels := dst.pixels.mapIdx fun off old =>
      let py : Int := ((off / dst.pitch : Nat) : Int)
      let px : Int := ((off % dst.pitch / bpp : Nat) : Int)
      if x0 ≤ px ∧ px < x1 ∧ y0 ≤ py ∧ py < y1 then
        storeByte bigEndian bpp color (off % dst.pitch % bpp)
      else old }

/-- Modelled from the spec: `SDL_MUSTLOCK` is a macro of SDL, not of src/; the spec only says
that raw access needs the lock, and the test used here is that of SDL 1.2: a buffer offset,
or a hardware, asynchronous or RLE surface. -/
def SDL_MUSTLOCK (surf : SDL_Surface) : Bool :=
  surf.offset ≠ 0 || surf.flags &&& (SDL_HWSURFACE ||| SDL_ASYNCBLIT ||| SDL_RLEACCEL) ≠ 0

/-- Modelled from the spec: `lockBuffer(handle) -> success|failure`; a granted lock is counted
on the surface. -/
def SDL_LockSurface (lockOk : Bool) (surf : SDL_Surface) : Int × SDL_Surface :=
  if lockOk then (0, { surf with locked := surf.locked + 1 }) else (-1, surf)

/-- Modelled from the spec: `unlockBuffer(handle)` gives back one lock. -/
def SDL_UnlockSurface (surf : SDL_Surface) : SDL_Surface :=
  { surf with locked := surf.locked - 1 }

/-- The environment in which the SDL calls of `base` are replaced by the reference model;
the byte order, `FIX2UINT`, `make_rect` and the blit primitive stay those of `base`. -/
def env (base : Env) (lockOk : Bool) : Env :=
  { base with
    SDL_MapRGB := SDL_MapRGB
    SDL_MapRGBA := SDL_MapRGBA
    SDL_GetRGB := SDL_GetRGB
    SDL_GetRGBA := SDL_GetRGBA
    SDL_SetAlpha := SDL_SetAlpha
    SDL_SetColorKey := SDL_SetColorKey
    SDL_FillRect := SDL_FillRect base.bigEndian
    SDL_MUSTLOCK := SDL_MUSTLOCK
    SDL_LockSurface := SDL_LockSurface lockOk
    SDL_UnlockSurface := SDL_UnlockSurface }

end Model

/-! ## A concrete platform for the examples -/

/-- The macro `FIX2UINT` of ruby.h where `int` and `long` have the same size: the word
shifted right by one bit with no type check; the word of `nil` is 4. -/
def FIX2UINT_unchecked (v : VALUE) : Except Exn Nat :=
  match v with
  | .fixnum n => .ok (toUint32 n)
  | .Qnil => .ok (4 >>> 1)
  | _ => .error .Undefined

/-- An `SDL_Rect` holding the four values (`Sint16 x, y`; `Uint16 w, h`). -/
def make_rect16 (x y w h : Int) : SDL_Rect :=
  { x := (x + 2 ^ 15) % 2 ^ 16 - 2 ^ 15, y := (y + 2 ^ 15) % 2 ^ 16 - 2 ^ 15,
    w := w % 2 ^ 16, h := h % 2 ^ 16 }

/-- A little-endian platform with the unchecked `FIX2UINT`; its blit primitive is not
modelled (it hands the target back). -/
def exampleBase : Env :=
  { bigEndian := false
    FIX2UINT := FIX2UINT_unchecked
    make_rect := make_rect16
    SDL_MapRGB := Model.SDL_MapRGB
    SDL_MapRGBA := Model.SDL_MapRGBA
    SDL_GetRGB := Model.SDL_GetRGB
    SDL_GetRGBA := Model.SDL_GetRGBA
    SDL_SetAlpha := Model.SDL_SetAlpha
    SDL_SetColorKey := Model.SDL_SetColorKey
    SDL_FillRect := Model.SDL_FillRect false
    SDL_BlitSurface := fun _ _ dest _ => dest
    SDL_MUSTLOCK := Model.SDL_MUSTLOCK
    SDL_LockSurface := Model.SDL_LockSurface true
    SDL_UnlockSurface := Model.SDL_UnlockSurface }

/-- The platform `exampleBase` with the reference SDL model, every lock being granted. -/
def exampleEnv : Env := Model.env exampleBase true

/-- The pixel format of a 32-bit surface with 8-bit channels and no alpha mask. -/
def rgb888 : SDL_PixelFormat :=
  { BitsPerPixel := 32, BytesPerPixel := 4,
    Rloss := 0, Gloss := 0, Bloss := 0, Aloss := 8,
    Rshift := 16, Gshift := 8, Bshift := 0, Ashift := 0,
    Rmask := 0xFF0000, Gmask := 0x00FF00, Bmask := 0x0000FF, Amask := 0,
    colorkey := 0, alpha := 255 }

/-- A software surface of `w` by `h` pixels of format `rgb888` with all bytes zero. -/
def blank32 (w h : Nat) : SDL_Surface :=
  { flags := 0, format := rgb888, w := w, h := h, pitch := w * 4,
    pixels := List.replicate (w * 4 * h) 0, offset := 0, locked := 0 }

/-- The pixel format of a 24-bit surface with 8-bit channels and no alpha mask. -/
def rgb24 : SDL_PixelFormat :=
  { rgb888 with BitsPerPixel := 24, BytesPerPixel := 3 }

/-- A one-pixel 24-bit surface whose three bytes are 1, 2, 3 (pitch 4). -/
def onePixel24 : SDL_Surface :=
  { flags := 0, format := rgb24, w := 1, h := 1, pitch := 4,
    pixels := [1, 2, 3, 0], offset := 0, locked := 0 }

/-- A 2x2 software surface of format `rgb888`, black except for the pixel `(0, 1)`, which
holds `(0, 7, 0)`. -/
def twoByTwo : SDL_Surface :=
  { flags := 0, format := rgb888, w := 2, h := 2, pitch := 8,
    pixels := [0, 0, 0, 0, 0, 0, 0, 0, 0, 7, 0, 0, 0, 0, 0, 0], offset := 0, locked := 0 }

/-- A 2x2 hardware surface (it requires locking), not locked. -/
def hwSurface : SDL_Surface :=
  { blank32 2 2 with flags := SDL_HWSURFACE }

/-! ## Helper lemmas on C integers -/

theorem NUM2INT_fixnum (n : Int) (h : isInt32 n) : NUM2INT (.fixnum n) = .ok n := by
  unfold NUM2INT
  exact if_pos h

theorem Except_ok_bind {α β : Type} (a : α) (f : α → Except Exn β) :
    (Except.ok a >>= f) = f a := rfl

theorem Except_error_bind {α β : Type} (e : Exn) (f : α → Except Exn β) :
    ((Except.error e : Except Exn α) >>= f) = .error e := rfl

theorem Except_pure {α : Type} (a : α) : (pure a : Except Exn α) = .ok a := rfl

theorem toUint32_of_nonneg (f : Int) (h : isInt32 f) (h0 : 0 ≤ f) : (toUint32 f : Int) = f := by
  unfold isInt32 at h
  unfold toUint32
  omega

theorem toUint32_eq_zero (f : Int) (h : isInt32 f) : toUint32 f = 0 ↔ f = 0 := by
  unfold isInt32 at h
  unfold toUint32
  omega

theorem toUint8_of_byte (r : Int) (h0 : 0 ≤ r) (h1 : r ≤ 255) : (toUint8 r : Int) = r := by
  unfold toUint8
  omega

/-! ## Helper lemmas on `get_at` -/

theorem unlockLoop_le_one (env : Env) (locked : Nat) (h : locked ≤ 1) (surf : SDL_Surface) :
    unlockLoop env locked surf = surf := by
  match locked, h with
  | 0, _ => rfl
  | 1, _ => rfl

theorem getat_xy_pair (x y : Int) (hx : isInt32 x) (hy : isInt32 y) :
    getat_xy [.fixnum x, .fixnum y] = .ok (x, y) := by
  simp [getat_xy, arg, NUM2INT_fixnum, hx, hy, Except_ok_bind, Except_pure]

theorem getat_xy_ary (x y : Int) (rest : List Int) (hx : isInt32 x) (hy : isInt32 y) :
    getat_xy [.ary (x :: y :: rest)] = .ok (x, y) := by
  simp [getat_xy, arg, rb_ary_entry, NUM2INT_fixnum, hx, hy, Except_ok_bind, Except_pure]

theorem getat_accepted (env : Env) (argv : List VALUE) (surf : SDL_Surface) (x y : Int)
    (hargc : argv.length ≤ 2) (hxy : getat_xy argv = .ok (x, y))
    (hx0 : 0 ≤ x) (hx1 : x ≤ surf.w) (hy0 : 0 ≤ y) (hy1 : y ≤ surf.h)
    (hlock : env.SDL_MUSTLOCK surf = true → (env.SDL_LockSurface surf).1 = 0) :
    rbgm_surface_getat env argv surf =
      match getat_color env (lockedFor env surf) x y with
      | .error e => (lockedFor env surf, .error e)
      | .ok color =>
        if color = 0 then (lockedFor env surf, .ok (.ary [0, 0, 0, 0]))
        else
          let c := env.SDL_GetRGBA color (lockedFor env surf).format
          (lockedFor env surf,
            .ok (.ary [(c.1 : Int), (c.2.1 : Int), (c.2.2.1 : Int), (c.2.2.2 : Int)])) := by
  have h1 : ¬ argv.length > 2 := by omega
  have h2 : ¬ (x < 0 ∨ x > surf.w) := by omega
  have h3 : ¬ (y < 0 ∨ y > surf.h) := by omega
  unfold rbgm_surface_getat lockedFor
  simp only [h1, if_false, hxy, h2, h3]
  by_cases hm : env.SDL_MUSTLOCK surf = true
  · simp only [hm, if_true, hlock hm]
    cases hc : getat_color env (env.SDL_LockSurface surf).2 x y with
    | error e => rfl
    | ok color => simp only [unlockLoop_le_one env (0 + 1) (by omega)]
  · simp only [hm]
    rfl

/-! ## Helper lemmas on `fill` followed by `get_at` -/

theorem offset_split (P c y : Nat) (hc : c < P) :
    (y * P + c) / P = y ∧ (y * P + c) % P = c := by
  have hP : 0 < P := by omega
  constructor
  · rw [Nat.add_comm, Nat.mul_comm, Nat.add_mul_div_left c y hP, Nat.div_eq_of_lt hc]
    omega
  · rw [Nat.add_comm, Nat.mul_comm, Nat.add_mul_mod_self_left, Nat.mod_eq_of_lt hc]

theorem readByte_fill (be : Bool) (dst : SDL_Surface) (rect : Option SDL_Rect) (color : Nat)
    (x y k : Nat) (off : Int)
    (hoff : off = (y : Int) * dst.pitch + (x : Int) * dst.format.BytesPerPixel + k)
    (hk : k < dst.format.BytesPerPixel)
    (hx : (x : Int) < dst.w) (hy : (y : Int) < dst.h)
    (hlen : dst.pixels.length = dst.pitch * dst.h.toNat)
    (hpitch : dst.w.toNat * dst.format.BytesPerPixel ≤ dst.pitch)
    (hcov : ∀ r, rect = some r → r.x ≤ x ∧ (x : Int) < r.x + r.w ∧ r.y ≤ y ∧ (y : Int) < r.y + r.h) :
    readByte (Model.SDL_FillRect be dst rect color).pixels off
      = .ok (Model.storeByte be dst.format.BytesPerPixel color k) := by
  obtain ⟨W, hW⟩ : ∃ W : Nat, dst.w = W := ⟨dst.w.toNat, by omega⟩
  obtain ⟨H, hH⟩ : ∃ H : Nat, dst.h = H := ⟨dst.h.toNat, by omega⟩
  generalize hbpp : dst.format.BytesPerPixel = bpp at *
  generalize hP : dst.pitch = P at *
  rw [hW] at hx hpitch
  rw [hH] at hy hlen
  simp only [Int.toNat_ofNat] at hpitch hlen
  have hxW : x + 1 ≤ W := by omega
  have hyH : y + 1 ≤ H := by omega
  have h1 : (x + 1) * bpp ≤ W * bpp := Nat.mul_le_mul_right bpp hxW
  have h2 : P * (y + 1) ≤ P * H := Nat.mul_le_mul_left P hyH
  have hc : x * bpp + k < P := by
    have : (x + 1) * bpp = x * bpp + bpp := by ring
    omega
  have hn : y * P + (x * bpp + k) < dst.pixels.length := by
    have : P * (y + 1) = y * P + P := by ring
    omega
  have hoffn : off = ((y * P + (x * bpp + k) : Nat) : Int) := by
    rw [hoff]; push_cast; ring
  obtain ⟨hd, hm⟩ := offset_split P (x * bpp + k) y hc
  have hkk : (x * bpp + k) / bpp = x ∧ (x * bpp + k) % bpp = k := offset_split bpp k x hk
  have hcond : max (match rect with
        | none => ({ x := 0, y := 0, w := dst.w, h := dst.h } : SDL_Rect)
        | some r => r).x 0 ≤ (x : Int)
      ∧ (x : Int) < min ((match rect with
        | none => ({ x := 0, y := 0, w := dst.w, h := dst.h } : SDL_Rect)
        | some r => r).x + (match rect with
        | none => ({ x := 0, y := 0, w := dst.w, h := dst.h } : SDL_Rect)
        | some r => r).w) dst.w
      ∧ max (match rect with
        | none => ({ x := 0, y := 0, w := dst.w, h := dst.h } : SDL_Rect)
        | some r => r).y 0 ≤ (y : Int)
      ∧ (y : Int) < min ((match rect with
        | none => ({ x := 0, y := 0, w := dst.w, h := dst.h } : SDL_Rect)
        | some r => r).y + (match rect with
        | none => ({ x := 0, y := 0, w := dst.w, h := dst.h } : SDL_Rect)
        | some r => r).h) dst.h := by
    cases rect with
    | none => simp only [hW, hH]; omega
    | some r =>
      obtain ⟨a1, a2, a3, a4⟩ := hcov r rfl
      simp only [hW, hH]; omega
  have hneg : ¬ ((y * P + (x * bpp + k) : Nat) : Int) < 0 := by omega
  unfold readByte Model.SDL_FillRect
  simp only [hoffn, Int.toNat_ofNat, List.getElem?_mapIdx, hbpp, hP]
  rw [List.getElem?_eq_getElem hn]
  simp only [Option.map_some', hd, hm, hkk.1, hkk.2]
  rw [if_pos hcond, if_neg hneg]


theorem load_store_1 (be : Bool) (c : Nat) (hc : c < 2 ^ 8) : Model.storeByte be 1 c 0 = c := by
  cases be <;> simp [Model.storeByte] <;> omega

theorem load_store_2 (be : Bool) (c : Nat) (hc : c < 2 ^ 16) :
    loadUint16 be (Model.storeByte be 2 c 0) (Model.storeByte be 2 c 1) = c := by
  cases be <;> simp [Model.storeByte, loadUint16, Nat.shiftLeft_eq, Nat.shiftRight_eq_div_pow]
    <;> omega

theorem load_store_3 (be : Bool) (c : Nat) (hc : c < 2 ^ 24) :
    color3 be (Model.storeByte be 3 c 0) (Model.storeByte be 3 c 1) (Model.storeByte be 3 c 2)
      = c := by
  cases be <;> simp [Model.storeByte, color3, Nat.shiftLeft_eq, Nat.shiftRight_eq_div_pow]
    <;> omega

theorem load_store_4 (be : Bool) (c : Nat) (hc : c < 2 ^ 32) :
    loadUint32 be (Model.storeByte be 4 c 0) (Model.storeByte be 4 c 1)
      (Model.storeByte be 4 c 2) (Model.storeByte be 4 c 3) = c := by
  cases be <;> simp [Model.storeByte, loadUint32, Nat.shiftLeft_eq, Nat.shiftRight_eq_div_pow]
    <;> omega

theorem getat_color_fill (env : Env) (dst s : SDL_Surface) (rect : Option SDL_Rect)
    (color : Nat) (x y : Nat)
    (hs1 : s.pixels = (Model.SDL_FillRect env.bigEndian dst rect color).pixels)
    (hs2 : s.pitch = dst.pitch) (hs3 : s.format = dst.format)
    (hb1 : 1 ≤ dst.format.BytesPerPixel) (hb4 : dst.format.BytesPerPixel ≤ 4)
    (hfits : color < 2 ^ (8 * dst.format.BytesPerPixel))
    (hx : (x : Int) < dst.w) (hy : (y : Int) < dst.h)
    (hlen : dst.pixels.length = dst.pitch * dst.h.toNat)
    (hpitch : dst.w.toNat * dst.format.BytesPerPixel ≤ dst.pitch)
    (hcov : ∀ r, rect = some r →
      r.x ≤ x ∧ (x : Int) < r.x + r.w ∧ r.y ≤ y ∧ (y : Int) < r.y + r.h) :
    getat_color env s x y = .ok color := by
  have key : ∀ (k : Nat) (off : Int), k < dst.format.BytesPerPixel →
      off = (y : Int) * dst.pitch + (x : Int) * dst.format.BytesPerPixel + k →
      readByte s.pixels off
        = .ok (Model.storeByte env.bigEndian dst.format.BytesPerPixel color k) := by
    intro k off hk hoff
    rw [hs1]
    exact readByte_fill env.bigEndian dst rect color x y k off hoff hk hx hy hlen hpitch hcov
  unfold getat_color
  simp only [hs2, hs3]
  have hcases : dst.format.BytesPerPixel = 1 ∨ dst.format.BytesPerPixel = 2
      ∨ dst.format.BytesPerPixel = 3 ∨ dst.format.BytesPerPixel = 4 := by omega
  rcases hcases with h | h | h | h
  · rw [h] at key hfits
    simp only [h, if_true]
    rw [key 0 _ (by omega) (by push_cast; ring), load_store_1 _ _ hfits]
  · rw [h] at key hfits
    simp only [h, if_true, OfNat.ofNat_ne_one, if_false]
    rw [key 0 _ (by omega) (by push_cast; ring), key 1 _ (by omega) (by push_cast; ring)]
    simp only [Except_ok_bind, Except_pure, load_store_2 _ _ hfits]
  · rw [h] at key hfits
    simp only [h, if_true, OfNat.ofNat_ne_one, if_false, Nat.succ_ne_self, Nat.reduceEqDiff]
    rw [key 0 _ (by omega) (by push_cast; ring), key 1 _ (by omega) (by push_cast; ring),
      key 2 _ (by omega) (by push_cast; ring)]
    simp only [Except_ok_bind, Except_pure, load_store_3 _ _ hfits]
  · rw [h] at key hfits
    simp only [h, if_true, OfNat.ofNat_ne_one, if_false, Nat.succ_ne_self, Nat.reduceEqDiff]
    rw [key 0 _ (by omega) (by push_cast; ring), key 1 _ (by omega) (by push_cast; ring),
      key 2 _ (by omega) (by push_cast; ring), key 3 _ (by omega) (by push_cast; ring)]
    simp only [Except_ok_bind, Except_pure, load_store_4 _ _ hfits]

theorem lockedFor_model (base : Env) (s : SDL_Surface) :
    (lockedFor (Model.env base true) s).pixels = s.pixels
    ∧ (lockedFor (Model.env base true) s).pitch = s.pitch
    ∧ (lockedFor (Model.env base true) s).format = s.format := by
  unfold lockedFor
  split_ifs <;> simp [Model.env, Model.SDL_LockSurface]

theorem fill_rgb_whole (env : Env) (surf : SDL_Surface) (r g b : Nat)
    (hr : env.FIX2UINT (.fixnum r) = .ok r) (hg : env.FIX2UINT (.fixnum g) = .ok g)
    (hb : env.FIX2UINT (.fixnum b) = .ok b) :
    rbgm_surface_fill env [.ary [r, g, b]] surf
      = (env.SDL_FillRect surf none
          (env.SDL_MapRGB surf.format (r % 2 ^ 8) (g % 2 ^ 8) (b % 2 ^ 8)), .ok ()) := by
  simp [rbgm_surface_fill, arg, rb_ary_entry, hr, hg, hb, Except_ok_bind, Except_pure]

theorem fill_rgb_rect (env : Env) (surf : SDL_Surface) (r g b : Nat) (rx ry rw rh : Int)
    (hr : env.FIX2UINT (.fixnum r) = .ok r) (hg : env.FIX2UINT (.fixnum g) = .ok g)
    (hb : env.FIX2UINT (.fixnum b) = .ok b)
    (hrx : isInt32 rx) (hry : isInt32 ry) (hrw : isInt32 rw) (hrh : isInt32 rh) :
    rbgm_surface_fill env [.ary [r, g, b], .ary [rx, ry, rw, rh]] surf
      = (env.SDL_FillRect surf (some (env.make_rect rx ry rw rh))
          (env.SDL_MapRGB surf.format (r % 2 ^ 8) (g % 2 ^ 8) (b % 2 ^ 8)), .ok ()) := by
  simp [rbgm_surface_fill, arg, rb_ary_entry, hr, hg, hb, NUM2INT_fixnum, hrx, hry, hrw, hrh,
    Except_ok_bind, Except_pure]

theorem getat_after_model_fill (base : Env) (surf : SDL_Surface) (rect : Option SDL_Rect)
    (r g b x y : Nat) (argv : List VALUE)
    (hamask : surf.format.Amask = 0)
    (hb1 : 1 ≤ surf.format.BytesPerPixel) (hb4 : surf.format.BytesPerPixel ≤ 4)
    (hfits : Model.SDL_MapRGB surf.format r g b < 2 ^ (8 * surf.format.BytesPerPixel))
    (hexact : Model.SDL_GetRGB (Model.SDL_MapRGB surf.format r g b) surf.format = (r, g, b))
    (hx : (x : Int) < surf.w) (hy : (y : Int) < surf.h)
    (hlen : surf.pixels.length = surf.pitch * surf.h.toNat)
    (hpitch : surf.w.toNat * surf.format.BytesPerPixel ≤ surf.pitch)
    (hargc : argv.length ≤ 2) (hxy : getat_xy argv = .ok ((x : Int), (y : Int)))
    (hcov : ∀ q, rect = some q →
      q.x ≤ x ∧ (x : Int) < q.x + q.w ∧ q.y ≤ y ∧ (y : Int) < q.y + q.h) :
    (rbgm_surface_getat (Model.env base true) argv
        (Model.SDL_FillRect base.bigEndian surf rect (Model.SDL_MapRGB surf.format r g b))).2
      = .ok (if Model.SDL_MapRGB surf.format r g b = 0 then VALUE.ary [0, 0, 0, 0]
             else VALUE.ary [(r : Int), (g : Int), (b : Int), 255]) := by
  have hl := lockedFor_model base
    (Model.SDL_FillRect base.bigEndian surf rect (Model.SDL_MapRGB surf.format r g b))
  have hcol := getat_color_fill (Model.env base true) surf
    (lockedFor (Model.env base true)
      (Model.SDL_FillRect base.bigEndian surf rect (Model.SDL_MapRGB surf.format r g b)))
    rect (Model.SDL_MapRGB surf.format r g b) x y hl.1 hl.2.1 hl.2.2 hb1 hb4 hfits hx hy hlen
    hpitch hcov
  rw [getat_accepted (Model.env base true) argv _ x y hargc hxy (by omega)
    (by show (x : Int) ≤ surf.w; omega) (by omega) (by show (y : Int) ≤ surf.h; omega)
    (fun _ => rfl), hcol]
  by_cases h0 : Model.SDL_MapRGB surf.format r g b = 0
  · simp [h0]
  · have hfmt : (lockedFor (Model.env base true)
        (Model.SDL_FillRect base.bigEndian surf rect
          (Model.SDL_MapRGB surf.format r g b))).format = surf.format := hl.2.2
    have hget : Model.SDL_GetRGBA (Model.SDL_MapRGB surf.format r g b) surf.format
        = (r, g, b, 255) := by
      have h1 := congrArg Prod.fst hexact
      have h2 := congrArg (fun t => t.2.1) hexact
      have h3 := congrArg (fun t => t.2.2) hexact
      simp only [Model.SDL_GetRGB] at h1 h2 h3
      simp [Model.SDL_GetRGBA, hamask, h1, h2, h3, SDL_ALPHA_OPAQUE]
    simp only [h0, if_false, hfmt]
    show Except.ok (VALUE.ary
      [((Model.SDL_GetRGBA (Model.SDL_MapRGB surf.format r g b) surf.format).1 : Int),
       ((Model.SDL_GetRGBA (Model.SDL_MapRGB surf.format r g b) surf.format).2.1 : Int),
       ((Model.SDL_GetRGBA (Model.SDL_MapRGB surf.format r g b) surf.format).2.2.1 : Int),
       ((Model.SDL_GetRGBA (Model.SDL_MapRGB surf.format r g b) surf.format).2.2.2 : Int)]) = _
    rw [hget]
    rfl

theorem and_shiftRight (a b n : Nat) : (a &&& b) >>> n = (a >>> n) &&& (b >>> n) := by
  induction n with
  | zero => rfl
  | succ n ih => simp only [Nat.shiftRight_succ, ih, Nat.and_div_two]

theorem rgb888_pack (r g b : Nat) (hg : g ≤ 255) (hb : b ≤ 255) :
    Model.SDL_MapRGB rgb888 r g b = r * 2 ^ 16 + g * 2 ^ 8 + b := by
  have h1 : 2 ^ 16 * r + 2 ^ 8 * g = 2 ^ 16 * r ||| 2 ^ 8 * g :=
    Nat.mul_add_lt_is_or (by omega) r
  have h2 : 2 ^ 8 * (2 ^ 8 * r + g) + b = 2 ^ 8 * (2 ^ 8 * r + g) ||| b :=
    Nat.mul_add_lt_is_or (by omega) _
  have h3 : 2 ^ 8 * (2 ^ 8 * r + g) = 2 ^ 16 * r + 2 ^ 8 * g := by ring
  simp only [Model.SDL_MapRGB, rgb888, Nat.shiftRight_zero, Nat.shiftLeft_eq, Nat.or_zero]
  rw [Nat.mul_comm r, Nat.mul_comm g, ← h1, ← h3, Nat.mul_one, ← h2]

theorem rgb888_exact (r g b : Nat) (hr : r ≤ 255) (hg : g ≤ 255) (hb : b ≤ 255) :
    Model.SDL_GetRGB (Model.SDL_MapRGB rgb888 r g b) rgb888 = (r, g, b) := by
  rw [rgb888_pack r g b hg hb]
  have e1 : (0xFF0000 : Nat) >>> 16 = 2 ^ 8 - 1 := by decide
  have e2 : (0x00FF00 : Nat) >>> 8 = 2 ^ 8 - 1 := by decide
  have e3 : (0x0000FF : Nat) = 2 ^ 8 - 1 := by decide
  simp only [Model.SDL_GetRGB, Model.unpackChannel, rgb888, and_shiftRight]
  simp only [e1, e2, Nat.shiftRight_zero, Nat.shiftLeft_zero, Nat.and_pow_two_sub_one_eq_mod]
  rw [e3, Nat.and_pow_two_sub_one_eq_mod]
  simp only [Nat.shiftRight_eq_div_pow]
  refine Prod.ext ?_ (Prod.ext ?_ ?_) <;> simp <;> omega

/-! ## The bounds test of `get_at` -/

theorem readByte_error (pixels : List Nat) (off : Int) (e : Exn)
    (h : readByte pixels off = .error e) : e = .Undefined := by
  unfold readByte at h
  split_ifs at h
  · simpa using h.symm
  · split at h
    · simp at h
    · simpa using h.symm

theorem getat_color_error (env : Env) (surf : SDL_Surface) (x y : Int) (e : Exn)
    (h : getat_color env surf x y = .error e) : e = .Undefined := by
  unfold getat_color at h
  simp only [bind, Except.bind, pure, Except.pure] at h
  split_ifs at h
  · exact readByte_error _ _ _ h
  all_goals
    repeat' split at h
    all_goals first
      | (cases h; apply readByte_error; assumption)
      | (simp at h)

/-- The bounds test of `get_at` as the code has it: for every backend and surface, the call
`get_at(x, y)` raises `IndexError` exactly when `x < 0`, `x > w`, `y < 0` or `y > h`. -/
theorem getat_index_error_iff (env : Env) (surf : SDL_Surface) (x y : Int)
    (hx : isInt32 x) (hy : isInt32 y) :
    (rbgm_surface_getat env [.fixnum x, .fixnum y] surf).2 = .error .IndexError
      ↔ (x < 0 ∨ x > surf.w ∨ y < 0 ∨ y > surf.h) := by
  have hxy := getat_xy_pair x y hx hy
  constructor
  · intro h
    by_contra hb
    by_cases hl : env.SDL_MUSTLOCK surf = true → (env.SDL_LockSurface surf).1 = 0
    · rw [getat_accepted env [.fixnum x, .fixnum y] surf x y (by simp) hxy (by omega)
        (by omega) (by omega) (by omega) hl] at h
      cases hc : getat_color env (lockedFor env surf) x y with
      | error e =>
        have := getat_color_error _ _ _ _ _ hc
        subst this
        rw [hc] at h
        simp at h
      | ok c =>
        rw [hc] at h
        dsimp only at h
        split_ifs at h
    · have hm : env.SDL_MUSTLOCK surf = true := by
        by_contra hm
        exact hl (fun hm2 => absurd hm2 hm)
      have hs : ¬ (env.SDL_LockSurface surf).1 = 0 := fun hs => hl (fun _ => hs)
      have hbx : ¬ (x < 0 ∨ x > surf.w) := by omega
      have hby : ¬ (y < 0 ∨ y > surf.h) := by omega
      unfold rbgm_surface_getat at h
      simp [hxy, hbx, hby, hm, hs] at h
  · intro hb
    unfold rbgm_surface_getat
    simp only [hxy, List.length_cons, List.length_nil]
    by_cases hbx : x < 0 ∨ x > surf.w
    · simp [hbx]
    · have hby : y < 0 ∨ y > surf.h := by omega
      simp [hbx, hby]

/-! ## Claims -/

/-- C4: for every `int` value `v` given to `set_alpha` with one or two arguments, the alpha
handed to `SDL_SetAlpha` is `min (max v 0) 255` (0 below 0, 255 above 255, `v` otherwise), so
it lies in 0..255; the flags handed over are `SDL_SRCALPHA` when omitted and the caller's
value (as `Uint32`) when given; no `ArgumentError` is raised; and with the reference backend
the clamped value is the one stored. -/
theorem set_alpha_clamps (env : Env) (surf : SDL_Surface) (v f : Int)
    (hv : isInt32 v) (hf : isInt32 f) :
    (rbgm_surface_set_alpha env [.fixnum v] surf =
        let r := env.SDL_SetAlpha surf SDL_SRCALPHA (min (max v 0) 255).toNat
        if r.1 ≠ 0 then (r.2, .error .SDLError) else (r.2, .ok ()))
    ∧ (rbgm_surface_set_alpha env [.fixnum v, .fixnum f] surf =
        let r := env.SDL_SetAlpha surf (toUint32 f) (min (max v 0) 255).toNat
        if r.1 ≠ 0 then (r.2, .error .SDLError) else (r.2, .ok ()))
    ∧ (min (max v 0) 255).toNat ≤ 255
    ∧ (v < 0 → (min (max v 0) 255).toNat = 0)
    ∧ (v > 255 → (min (max v 0) 255).toNat = 255)
    ∧ (0 ≤ v → v ≤ 255 → ((min (max v 0) 255).toNat : Int) = v)
    ∧ (0 ≤ f → (toUint32 f : Int) = f)
    ∧ (rbgm_surface_set_alpha env [.fixnum v] surf).2 ≠ .error .ArgError
    ∧ (rbgm_surface_set_alpha env [.fixnum v, .fixnum f] surf).2 ≠ .error .ArgError
    ∧ (rbgm_surface_set_alpha (Model.env env true) [.fixnum v] surf).1.format.alpha
        = (min (max v 0) 255).toNat
    ∧ (rbgm_surface_set_alpha (Model.env env true) [.fixnum v, .fixnum f] surf).1.format.alpha
        = (min (max v 0) 255).toNat := by
  have ha : (if v < 0 then 0 else if v > 255 then 255 else toUint8 v)
      = (min (max v 0) 255).toNat := by
    unfold toUint8
    split_ifs <;> omega
  have h1 : rbgm_surface_set_alpha env [.fixnum v] surf =
      (let r := env.SDL_SetAlpha surf SDL_SRCALPHA (min (max v 0) 255).toNat
       if r.1 ≠ 0 then (r.2, .error .SDLError) else (r.2, .ok ())) := by
    simp only [rbgm_surface_set_alpha, arg, NUM2INT_fixnum v hv, ha, List.length_cons,
      List.length_nil, Except_ok_bind, Except_pure, List.getElem?_cons_zero]
    simp
  have h2 : rbgm_surface_set_alpha env [.fixnum v, .fixnum f] surf =
      (let r := env.SDL_SetAlpha surf (toUint32 f) (min (max v 0) 255).toNat
       if r.1 ≠ 0 then (r.2, .error .SDLError) else (r.2, .ok ())) := by
    simp only [rbgm_surface_set_alpha, arg, NUM2INT_fixnum v hv, NUM2INT_fixnum f hf, ha,
      List.length_cons, List.length_nil, Except_ok_bind, Except_pure, List.getElem?_cons_zero,
      List.getElem?_cons_succ]
    simp
  refine ⟨h1, h2, by omega, by omega, by omega, by omega, toUint32_of_nonneg f hf, ?_, ?_,
    ?_, ?_⟩
  · rw [h1]; dsimp only; split_ifs <;> simp
  · rw [h2]; dsimp only; split_ifs <;> simp
  · simp only [rbgm_surface_set_alpha, arg, NUM2INT_fixnum v hv, ha, List.length_cons,
      List.length_nil, Except_ok_bind, Except_pure, List.getElem?_cons_zero]
    simp [Model.env, Model.SDL_SetAlpha]
  · simp only [rbgm_surface_set_alpha, arg, NUM2INT_fixnum v hv, NUM2INT_fixnum f hf, ha,
      List.length_cons, List.length_nil, Except_ok_bind, Except_pure, List.getElem?_cons_zero,
      List.getElem?_cons_succ]
    simp [Model.env, Model.SDL_SetAlpha]

/-- Witness for C4: `set_alpha(-5)` stores 0 and `set_alpha(999, 0)` stores 255. -/
theorem set_alpha_clamps_witness :
    isInt32 (-5) ∧ isInt32 999 ∧ isInt32 0
    ∧ (rbgm_surface_set_alpha exampleEnv [.fixnum (-5)] (blank32 1 1)).1.format.alpha = 0
    ∧ (rbgm_surface_set_alpha exampleEnv [.fixnum 999, .fixnum 0] (blank32 1 1)).1.format.alpha
        = 255 :=
  ⟨by decide, by decide, by decide,
   (set_alpha_clamps exampleEnv (blank32 1 1) (-5) 0 (by decide) (by decide)).2.2.2.2.2.2.2.2.2.1,
   (set_alpha_clamps exampleEnv (blank32 1 1) 999 0 (by decide) (by decide)).2.2.2.2.2.2.2.2.2.2⟩


/-- C7: `set_colorkey` hands `SDL_SetColorKey` the pair `(0, 0)` when the colour is `nil`,
whatever follows it; for `[r, g, b]` the colour is `SDL_MapRGB` of the components (as
`Uint8`) and the flag is `SDL_SRCCOLORKEY` (nonzero) when no flags are given, otherwise the
caller's value (as `Uint32`), which is zero only when the caller passes 0. -/
theorem set_colorkey_pair (env : Env) (surf : SDL_Surface) (rest : List VALUE)
    (r g b f : Int) (more : List VALUE)
    (hr : isInt32 r) (hg : isInt32 g) (hb : isInt32 b) (hf : isInt32 f) :
    (rbgm_surface_set_colorkey env (.Qnil :: rest) surf =
        let s := env.SDL_SetColorKey surf 0 0
        if s.1 ≠ 0 then (s.2, .error .SDLError) else (s.2, .ok ()))
    ∧ (rbgm_surface_set_colorkey env [.ary [r, g, b]] surf =
        let s := env.SDL_SetColorKey surf SDL_SRCCOLORKEY
          (env.SDL_MapRGB surf.format (toUint8 r) (toUint8 g) (toUint8 b))
        if s.1 ≠ 0 then (s.2, .error .SDLError) else (s.2, .ok ()))
    ∧ (rbgm_surface_set_colorkey env (.ary [r, g, b] :: .fixnum f :: more) surf =
        let s := env.SDL_SetColorKey surf (toUint32 f)
          (env.SDL_MapRGB surf.format (toUint8 r) (toUint8 g) (toUint8 b))
        if s.1 ≠ 0 then (s.2, .error .SDLError) else (s.2, .ok ()))
    ∧ SDL_SRCCOLORKEY ≠ 0
    ∧ (toUint32 f = 0 ↔ f = 0)
    ∧ (0 ≤ f → (toUint32 f : Int) = f)
    ∧ (0 ≤ r → r ≤ 255 → (toUint8 r : Int) = r)
    ∧ (0 ≤ g → g ≤ 255 → (toUint8 g : Int) = g)
    ∧ (0 ≤ b → b ≤ 255 → (toUint8 b : Int) = b) := by
  refine ⟨?_, ?_, ?_, by decide, toUint32_eq_zero f hf, toUint32_of_nonneg f hf,
    toUint8_of_byte r, toUint8_of_byte g, toUint8_of_byte b⟩
  · simp [rbgm_surface_set_colorkey, arg, Except_ok_bind, Except_pure]
  · simp [rbgm_surface_set_colorkey, arg, rb_ary_entry, NUM2INT_fixnum, hr, hg, hb,
      Except_ok_bind, Except_pure]
  · simp [rbgm_surface_set_colorkey, arg, rb_ary_entry, NUM2INT_fixnum, hr, hg, hb, hf,
      Except_ok_bind, Except_pure]

/-- Witness for C7: on a 32-bit surface `set_colorkey([1, 2, 3], 0)` hands over flag 0 and
the colour 0x010203. -/
theorem set_colorkey_pair_witness :
    isInt32 1 ∧ isInt32 2 ∧ isInt32 3 ∧ isInt32 0
    ∧ rbgm_surface_set_colorkey exampleEnv [.ary [1, 2, 3], .fixnum 0] (blank32 1 1)
      = ((exampleEnv.SDL_SetColorKey (blank32 1 1) 0 0x010203).2, .ok ()) :=
  ⟨by decide, by decide, by decide, by decide,
   (set_colorkey_pair exampleEnv (blank32 1 1) [] 1 2 3 0 []
      (by decide) (by decide) (by decide) (by decide)).2.2.1⟩

/-- C9: in the three-byte case of `get_at`, the bytes `(p0, p1, p2)` read at offset
`y*pitch + x*3` are assembled into `p0 + p1*2^8 + p2*2^16` on a little-endian platform and
`p2 + p1*2^8 + p0*2^16` on a big-endian one; the value is below `2^24`, the map from byte
triples is injective on each platform, and little-endian decoding of `(p0, p1, p2)` equals
big-endian decoding of `(p2, p1, p0)`. -/
theorem getat_three_bytes (env : Env) (surf : SDL_Surface) (x y : Int)
    (p0 p1 p2 q0 q1 q2 : Nat)
    (hbpp : surf.format.BytesPerPixel = 3)
    (hp0 : p0 < 256) (hp1 : p1 < 256) (hp2 : p2 < 256)
    (hq0 : q0 < 256) (hq1 : q1 < 256) (hq2 : q2 < 256)
    (hr0 : readByte surf.pixels (y * surf.pitch + x * 3) = .ok p0)
    (hr1 : readByte surf.pixels (y * surf.pitch + x * 3 + 1) = .ok p1)
    (hr2 : readByte surf.pixels (y * surf.pitch + x * 3 + 2) = .ok p2) :
    getat_color env surf x y = .ok (color3 env.bigEndian p0 p1 p2)
    ∧ color3 false p0 p1 p2 = p0 + p1 * 2 ^ 8 + p2 * 2 ^ 16
    ∧ color3 true p0 p1 p2 = p2 + p1 * 2 ^ 8 + p0 * 2 ^ 16
    ∧ color3 env.bigEndian p0 p1 p2 < 2 ^ 24
    ∧ (color3 env.bigEndian p0 p1 p2 = color3 env.bigEndian q0 q1 q2
        → p0 = q0 ∧ p1 = q1 ∧ p2 = q2)
    ∧ color3 false p0 p1 p2 = color3 true p2 p1 p0 := by
  refine ⟨?_, ?_, ?_, ?_, ?_, ?_⟩
  · simp [getat_color, hbpp, hr0, hr1, hr2, Except_ok_bind, Except_pure]
  · simp [color3, Nat.shiftLeft_eq]
  · simp [color3, Nat.shiftLeft_eq]
  · cases env.bigEndian <;> simp only [color3, Nat.shiftLeft_eq] <;> simp <;> omega
  · cases env.bigEndian <;> simp only [color3, Nat.shiftLeft_eq] <;> simp <;> omega
  · simp [color3, Nat.shiftLeft_eq]

/-- C10: for every backend, format and accepted coordinate, when the raw value read from
the buffer is 0 `get_at` returns `[0, 0, 0, 0]` whatever `SDL_GetRGBA` would give, and for
a nonzero raw value it returns the `SDL_GetRGBA` unpacking of that value for the format. -/
theorem getat_zero_guard (env : Env) (argv : List VALUE) (surf : SDL_Surface) (x y : Int)
    (c : Nat) (hargc : argv.length ≤ 2) (hxy : getat_xy argv = .ok (x, y))
    (hx0 : 0 ≤ x) (hx1 : x ≤ surf.w) (hy0 : 0 ≤ y) (hy1 : y ≤ surf.h)
    (hlock : env.SDL_MUSTLOCK surf = true → (env.SDL_LockSurface surf).1 = 0)
    (hc : getat_color env (lockedFor env surf) x y = .ok c) :
    (c = 0 → (rbgm_surface_getat env argv surf).2 = .ok (.ary [0, 0, 0, 0]))
    ∧ (c ≠ 0 → (rbgm_surface_getat env argv surf).2 =
        .ok (.ary [((env.SDL_GetRGBA c (lockedFor env surf).format).1 : Int),
                   ((env.SDL_GetRGBA c (lockedFor env surf).format).2.1 : Int),
                   ((env.SDL_GetRGBA c (lockedFor env surf).format).2.2.1 : Int),
                   ((env.SDL_GetRGBA c (lockedFor env surf).format).2.2.2 : Int)])) := by
  rw [getat_accepted env argv surf x y hargc hxy hx0 hx1 hy0 hy1 hlock, hc]
  constructor
  · intro h0; simp [h0]
  · intro h0; simp [h0]

/-- Witness for C9: the bytes 1, 2, 3 of a 24-bit pixel give `1 + 2*2^8 + 3*2^16`. -/
theorem getat_three_bytes_witness :
    onePixel24.format.BytesPerPixel = 3
    ∧ readByte onePixel24.pixels (0 * onePixel24.pitch + 0 * 3) = .ok 1
    ∧ readByte onePixel24.pixels (0 * onePixel24.pitch + 0 * 3 + 1) = .ok 2
    ∧ readByte onePixel24.pixels (0 * onePixel24.pitch + 0 * 3 + 2) = .ok 3
    ∧ getat_color exampleEnv onePixel24 0 0 = .ok (color3 false 1 2 3)
    ∧ color3 false 1 2 3 = 1 + 2 * 2 ^ 8 + 3 * 2 ^ 16 :=
  ⟨by decide, by decide, by decide, by decide,
   (getat_three_bytes exampleEnv onePixel24 0 0 1 2 3 1 2 3 (by decide) (by decide) (by decide)
      (by decide) (by decide) (by decide) (by decide) (by decide) (by decide) (by decide)).1,
   by decide⟩

/-- Witness for C10: on an all-zero 32-bit surface without alpha mask `get_at(0, 0)` returns
`[0, 0, 0, 0]`, although the unpacking of 0 has alpha 255. -/
theorem getat_zero_guard_witness :
    getat_xy [.fixnum 0, .fixnum 0] = .ok (0, 0)
    ∧ getat_color exampleEnv (lockedFor exampleEnv (blank32 1 1)) 0 0 = .ok 0
    ∧ exampleEnv.SDL_GetRGBA 0 (blank32 1 1).format = (0, 0, 0, 255)
    ∧ (rbgm_surface_getat exampleEnv [.fixnum 0, .fixnum 0] (blank32 1 1)).2
        = .ok (.ary [0, 0, 0, 0]) :=
  ⟨by decide, by decide, by decide,
   (getat_zero_guard exampleEnv [.fixnum 0, .fixnum 0] (blank32 1 1) 0 0 0 (by decide)
      (by decide) (by decide) (by decide) (by decide) (by decide) (by decide) (by decide)).1 rfl⟩

/-- The lock taken by `get_at` is never given back: with the reference backend, on a surface
that requires locking, every call that gets past the argument and bounds checks leaves the
lock count one higher. -/
theorem getat_lock_count (base : Env) (argv : List VALUE) (surf : SDL_Surface) (x y : Int)
    (hargc : argv.length ≤ 2) (hxy : getat_xy argv = .ok (x, y))
    (hx0 : 0 ≤ x) (hx1 : x ≤ surf.w) (hy0 : 0 ≤ y) (hy1 : y ≤ surf.h)
    (hm : Model.SDL_MUSTLOCK surf = true) :
    (rbgm_surface_getat (Model.env base true) argv surf).1.locked = surf.locked + 1 := by
  rw [getat_accepted (Model.env base true) argv surf x y hargc hxy hx0 hx1 hy0 hy1
    (fun _ => rfl)]
  have hl : (lockedFor (Model.env base true) surf).locked = surf.locked + 1 := by
    simp [lockedFor, Model.env, hm, Model.SDL_LockSurface]
  split
  · exact hl
  · split_ifs <;> exact hl

/-- C5 (the code departs from it): on a hardware surface with lock count 0, `get_at(0, 0)`
returns normally and leaves the lock count at 1. -/
theorem getat_leaves_lock_held :
    Model.SDL_MUSTLOCK hwSurface = true
    ∧ hwSurface.locked = 0
    ∧ (rbgm_surface_getat exampleEnv [.fixnum 0, .fixnum 0] hwSurface).2
        = .ok (.ary [0, 0, 0, 0])
    ∧ (rbgm_surface_getat exampleEnv [.fixnum 0, .fixnum 0] hwSurface).1.locked = 1 :=
  ⟨by decide, by decide, by decide,
   getat_lock_count exampleEnv [.fixnum 0, .fixnum 0] hwSurface 0 0 (by decide) (by decide)
     (by decide) (by decide) (by decide) (by decide) (by decide)⟩

/-- C1 (the code departs from it): on a 2x2 surface `get_at(2, 0)` raises nothing and returns
the colour of pixel `(0, 1)`; `get_at(0, 2)` raises no `IndexError` and reads at offset
`pitch * h = 16`, outside the 16-byte buffer; only coordinates above the width or height,
or below 0, raise `IndexError`. -/
theorem getat_accepts_one_past_the_end :
    twoByTwo.w = 2 ∧ twoByTwo.h = 2 ∧ twoByTwo.pixels.length = twoByTwo.pitch * 2
    ∧ (rbgm_surface_getat exampleEnv [.fixnum 2, .fixnum 0] twoByTwo).2
        = .ok (.ary [0, 7, 0, 255])
    ∧ (rbgm_surface_getat exampleEnv [.fixnum 0, .fixnum 1] twoByTwo).2
        = .ok (.ary [0, 7, 0, 255])
    ∧ (rbgm_surface_getat exampleEnv [.fixnum 0, .fixnum 2] twoByTwo).2 = .error .Undefined
    ∧ readByte twoByTwo.pixels (2 * twoByTwo.pitch + 0 * 4) = .error .Undefined
    ∧ (rbgm_surface_getat exampleEnv [.fixnum 3, .fixnum 0] twoByTwo).2 = .error .IndexError
    ∧ (rbgm_surface_getat exampleEnv [.fixnum 0, .fixnum 3] twoByTwo).2 = .error .IndexError
    ∧ (rbgm_surface_getat exampleEnv [.fixnum (-1), .fixnum 0] twoByTwo).2
        = .error .IndexError := by
  decide

/-- With the reference backend, a colour whose packed value is 0 reads back as `nil` after
`set_colorkey`. -/
theorem get_colorkey_of_zero_key (base : Env) (surf : SDL_Surface) (r g b : Int)
    (hr : isInt32 r) (hg : isInt32 g) (hb : isInt32 b)
    (h0 : Model.SDL_MapRGB surf.format (toUint8 r) (toUint8 g) (toUint8 b) = 0) :
    rbgm_surface_get_colorkey (Model.env base true)
      (rbgm_surface_set_colorkey (Model.env base true) [.ary [r, g, b]] surf).1 = .Qnil := by
  simp [rbgm_surface_set_colorkey, arg, rb_ary_entry, NUM2INT_fixnum, hr, hg, hb,
    Except_ok_bind, Except_pure, Model.env, h0, Model.SDL_SetColorKey,
    rbgm_surface_get_colorkey, SDL_SRCCOLORKEY]

/-- C6 (the code departs from it): on a 32-bit surface, after `set_colorkey([0, 0, 0])` the
colorkey flag is enabled with key 0, and `colorkey` returns `nil`, exactly as after
`set_colorkey(nil)`; a key with a nonzero packed value is returned. -/
theorem get_colorkey_black_reads_nil :
    Model.SDL_MapRGB (blank32 1 1).format 0 0 0 = 0
    ∧ (rbgm_surface_set_colorkey exampleEnv [.ary [0, 0, 0]] (blank32 1 1)).1.flags
        &&& SDL_SRCCOLORKEY = SDL_SRCCOLORKEY
    ∧ rbgm_surface_get_colorkey exampleEnv
        (rbgm_surface_set_colorkey exampleEnv [.ary [0, 0, 0]] (blank32 1 1)).1 = .Qnil
    ∧ rbgm_surface_get_colorkey exampleEnv
        (rbgm_surface_set_colorkey exampleEnv [.Qnil] (blank32 1 1)).1 = .Qnil
    ∧ rbgm_surface_get_colorkey exampleEnv
        (rbgm_surface_set_colorkey exampleEnv [.ary [0, 0, 1]] (blank32 1 1)).1
        = .ary [0, 0, 1] := by
  decide

/-- C8 (the code departs from it): where `FIX2UINT` is the unchecked macro, `fill([])` on a
one-pixel 32-bit surface whose bytes are 0 raises nothing and writes the pixel: each missing
component is `nil`, whose word 4 the macro shifts to 2, so the bytes become 2, 2, 2;
likewise `fill([9, 8])` writes the colour `(9, 8, 2)`. -/
theorem fill_short_colour_paints :
    exampleEnv.FIX2UINT .Qnil = .ok 2
    ∧ (blank32 1 1).pixels = [0, 0, 0, 0]
    ∧ rbgm_surface_fill exampleEnv [.ary []] (blank32 1 1)
        = ({ blank32 1 1 with pixels := [2, 2, 2, 0] }, .ok ())
    ∧ rbgm_surface_fill exampleEnv [.ary [9, 8]] (blank32 1 1)
        = ({ blank32 1 1 with pixels := [2, 8, 9, 0] }, .ok ()) := by
  decide

/-- What `fill` does with its colour and its argument count, for every backend.  With
exactly three components it fills with the `SDL_MapRGB` packing, with more than three with
the `SDL_MapRGBA` packing of the first four; no argument raises `ArgumentError`, three
arguments raise it, and four raise the `TypeError` of `NUM2INT(argc)`; whenever `fill`
raises, the surface (so the pixel buffer) is unchanged; and a missing component is `nil`
converted by `FIX2UINT`: where that conversion raises, `fill` raises the same exception and
writes nothing, where it yields a number, `fill` fills with it. -/
theorem fill_packing (env : Env) (surf : SDL_Surface) (r g b a : Nat) (rest : List Int)
    (v1 v2 v3 : VALUE)
    (hr : env.FIX2UINT (.fixnum r) = .ok r) (hg : env.FIX2UINT (.fixnum g) = .ok g)
    (hb : env.FIX2UINT (.fixnum b) = .ok b) (ha : env.FIX2UINT (.fixnum a) = .ok a) :
    rbgm_surface_fill env [.ary [r, g, b]] surf
      = (env.SDL_FillRect surf none
          (env.SDL_MapRGB surf.format (r % 2 ^ 8) (g % 2 ^ 8) (b % 2 ^ 8)), .ok ())
    ∧ rbgm_surface_fill env [.ary (r :: g :: b :: a :: rest)] surf
      = (env.SDL_FillRect surf none
          (env.SDL_MapRGBA surf.format (r % 2 ^ 8) (g % 2 ^ 8) (b % 2 ^ 8) (a % 2 ^ 8)), .ok ())
    ∧ rbgm_surface_fill env [] surf = (surf, .error .ArgError)
    ∧ rbgm_surface_fill env [.ary [r, g, b], v1, v2] surf = (surf, .error .ArgError)
    ∧ rbgm_surface_fill env [.ary [r, g, b], v1, v2, v3] surf = (surf, .error .TypeError)
    ∧ (∀ (argv : List VALUE) (e : Exn), (rbgm_surface_fill env argv surf).2 = .error e →
        (rbgm_surface_fill env argv surf).1 = surf)
    ∧ (∀ e : Exn, env.FIX2UINT .Qnil = .error e →
        rbgm_surface_fill env [.ary []] surf = (surf, .error e)
        ∧ rbgm_surface_fill env [.ary [r]] surf = (surf, .error e)
        ∧ rbgm_surface_fill env [.ary [r, g]] surf = (surf, .error e))
    ∧ (∀ n : Nat, env.FIX2UINT .Qnil = .ok n →
        rbgm_surface_fill env [.ary [r, g]] surf
          = (env.SDL_FillRect surf none
              (env.SDL_MapRGB surf.format (r % 2 ^ 8) (g % 2 ^ 8) (n % 2 ^ 8)), .ok ())) := by
  refine ⟨?_, ?_, ?_, ?_, ?_, ?_, ?_, ?_⟩
  · simp [rbgm_surface_fill, arg, rb_ary_entry, hr, hg, hb, Except_ok_bind, Except_pure]
  · simp [rbgm_surface_fill, arg, rb_ary_entry, hr, hg, hb, ha, Except_ok_bind, Except_pure]
  · simp [rbgm_surface_fill]
  · simp [rbgm_surface_fill, arg, rb_ary_entry, hr, hg, hb, Except_ok_bind, Except_pure,
      NUM2INT_word]
  · simp [rbgm_surface_fill, arg, rb_ary_entry, hr, hg, hb, Except_ok_bind, Except_pure,
      NUM2INT_word]
  · intro argv e
    unfold rbgm_surface_fill
    dsimp only
    split_ifs <;> repeat' split
    all_goals first | (intro _; rfl) | (intro h; simp at h)
  · intro e he
    refine ⟨?_, ?_, ?_⟩ <;>
      simp [rbgm_surface_fill, arg, rb_ary_entry, hr, hg, he, Except_ok_bind, Except_error_bind,
        Except_pure]
  · intro n hn
    simp [rbgm_surface_fill, arg, rb_ary_entry, hr, hg, hn, Except_ok_bind, Except_pure]

/-- An instance of `fill_packing`: `fill([255, 0, 0])` on a one-pixel 32-bit surface writes
the packed value 0xFF0000. -/
theorem fill_packing_example :
    exampleEnv.FIX2UINT (.fixnum (255 : Nat)) = .ok 255
    ∧ exampleEnv.FIX2UINT (.fixnum (0 : Nat)) = .ok 0
    ∧ rbgm_surface_fill exampleEnv [.ary [(255 : Nat), (0 : Nat), (0 : Nat)]] (blank32 1 1)
      = (exampleEnv.SDL_FillRect (blank32 1 1) none 0xFF0000, .ok ()) :=
  ⟨by decide, by decide,
   (fill_packing exampleEnv (blank32 1 1) 255 0 0 0 [] .Qnil .Qnil .Qnil (by decide) (by decide)
      (by decide) (by decide)).1⟩

/-- C2 (the code departs from it): on a 2x2 32-bit surface without alpha mask, after
`fill([0, 0, 0])` over the whole surface `get_at(0, 1)` returns `[0, 0, 0, 0]`, not
`[0, 0, 0, 255]`, although `SDL_GetRGBA` unpacks the raw value 0 to `(0, 0, 0, 255)` and the
same pixel read `[0, 7, 0, 255]` before the fill. -/
theorem fill_black_reads_alpha_zero :
    twoByTwo.format.Amask = 0
    ∧ Model.SDL_MapRGB twoByTwo.format 0 0 0 = 0
    ∧ Model.SDL_GetRGBA 0 twoByTwo.format = (0, 0, 0, 255)
    ∧ (rbgm_surface_getat exampleEnv [.fixnum 0, .fixnum 1] twoByTwo).2
        = .ok (.ary [0, 7, 0, 255])
    ∧ (rbgm_surface_getat exampleEnv [.fixnum 0, .fixnum 1]
        (rbgm_surface_fill exampleEnv [.ary [0, 0, 0]] twoByTwo).1).2 = .ok (.ary [0, 0, 0, 0])
    ∧ (rbgm_surface_getat exampleEnv [.fixnum 0, .fixnum 1]
        (rbgm_surface_fill exampleEnv [.ary [0, 0, 0]] twoByTwo).1).2
        ≠ .ok (.ary [0, 0, 0, 255]) := by
  decide

/-- The read-back of a fill, as the code has it: on a surface whose format has no alpha mask
and 1 to 4 bytes per pixel, for a colour `(r, g, b)` with components in 0..255 that the format represents exactly and
whose packed value fits the pixel, and an in-bounds `(x, y)`: after `fill` with that colour
over the whole surface, or over a rectangle covering `(x, y)`, `get_at(x, y)` returns
`[r, g, b, 255]` when the packed value is nonzero and `[0, 0, 0, 0]` when it is 0
(reference backend, either byte order). -/
theorem fill_then_getat (base : Env) (surf : SDL_Surface) (r g b x y : Nat)
    (argv : List VALUE) (rx ry rw rh : Int)
    (hamask : surf.format.Amask = 0)
    (hb1 : 1 ≤ surf.format.BytesPerPixel) (hb4 : surf.format.BytesPerPixel ≤ 4)
    (hr : r ≤ 255) (hg : g ≤ 255) (hb : b ≤ 255)
    (hfr : base.FIX2UINT (.fixnum r) = .ok r) (hfg : base.FIX2UINT (.fixnum g) = .ok g)
    (hfb : base.FIX2UINT (.fixnum b) = .ok b)
    (hfits : Model.SDL_MapRGB surf.format r g b < 2 ^ (8 * surf.format.BytesPerPixel))
    (hexact : Model.SDL_GetRGB (Model.SDL_MapRGB surf.format r g b) surf.format = (r, g, b))
    (hx : (x : Int) < surf.w) (hy : (y : Int) < surf.h)
    (hlen : surf.pixels.length = surf.pitch * surf.h.toNat)
    (hpitch : surf.w.toNat * surf.format.BytesPerPixel ≤ surf.pitch)
    (hargc : argv.length ≤ 2) (hxy : getat_xy argv = .ok ((x : Int), (y : Int)))
    (hrx : isInt32 rx) (hry : isInt32 ry) (hrw : isInt32 rw) (hrh : isInt32 rh)
    (hcov : (base.make_rect rx ry rw rh).x ≤ x
      ∧ (x : Int) < (base.make_rect rx ry rw rh).x + (base.make_rect rx ry rw rh).w
      ∧ (base.make_rect rx ry rw rh).y ≤ y
      ∧ (y : Int) < (base.make_rect rx ry rw rh).y + (base.make_rect rx ry rw rh).h) :
    (rbgm_surface_getat (Model.env base true) argv
        (rbgm_surface_fill (Model.env base true) [.ary [r, g, b]] surf).1).2
      = .ok (if Model.SDL_MapRGB surf.format r g b = 0 then VALUE.ary [0, 0, 0, 0]
             else VALUE.ary [(r : Int), (g : Int), (b : Int), 255])
    ∧ (rbgm_surface_getat (Model.env base true) argv
        (rbgm_surface_fill (Model.env base true)
          [.ary [r, g, b], .ary [rx, ry, rw, rh]] surf).1).2
      = .ok (if Model.SDL_MapRGB surf.format r g b = 0 then VALUE.ary [0, 0, 0, 0]
             else VALUE.ary [(r : Int), (g : Int), (b : Int), 255]) := by
  have er : r % 2 ^ 8 = r := Nat.mod_eq_of_lt (by omega)
  have eg : g % 2 ^ 8 = g := Nat.mod_eq_of_lt (by omega)
  have eb : b % 2 ^ 8 = b := Nat.mod_eq_of_lt (by omega)
  constructor
  · rw [fill_rgb_whole (Model.env base true) surf r g b hfr hfg hfb, er, eg, eb]
    exact getat_after_model_fill base surf none r g b x y argv hamask hb1 hb4 hfits hexact
      hx hy hlen hpitch hargc hxy (fun q hq => by cases hq)
  · rw [fill_rgb_rect (Model.env base true) surf r g b rx ry rw rh hfr hfg hfb hrx hry hrw hrh,
      er, eg, eb]
    exact getat_after_model_fill base surf (some (base.make_rect rx ry rw rh)) r g b x y argv
      hamask hb1 hb4 hfits hexact hx hy hlen hpitch hargc hxy
      (fun q hq => by cases hq; exact hcov)

/-- An instance of `fill_then_getat`: on a 4x4 32-bit surface, after `fill([255, 0, 0])`,
`get_at(3, 3)` returns `[255, 0, 0, 255]`, and so it does after
`fill([255, 0, 0], [2, 2, 2, 2])`. -/
theorem fill_then_getat_example :
    (blank32 4 4).format.Amask = 0
    ∧ (blank32 4 4).format.BytesPerPixel = 4
    ∧ Model.SDL_GetRGB (Model.SDL_MapRGB (blank32 4 4).format 255 0 0) (blank32 4 4).format
        = (255, 0, 0)
    ∧ (blank32 4 4).pixels.length = (blank32 4 4).pitch * (blank32 4 4).h.toNat
    ∧ (rbgm_surface_getat exampleEnv [.fixnum 3, .fixnum 3]
        (rbgm_surface_fill exampleEnv [.ary [255, 0, 0]] (blank32 4 4)).1).2
      = .ok (.ary [255, 0, 0, 255])
    ∧ (rbgm_surface_getat exampleEnv [.fixnum 3, .fixnum 3]
        (rbgm_surface_fill exampleEnv [.ary [255, 0, 0], .ary [2, 2, 2, 2]] (blank32 4 4)).1).2
      = .ok (.ary [255, 0, 0, 255]) :=
  have h := fill_then_getat exampleBase (blank32 4 4) 255 0 0 3 3 [.fixnum 3, .fixnum 3]
    2 2 2 2 (by decide) (by decide) (by decide) (by decide) (by decide) (by decide)
    (by decide) (by decide) (by decide) (by decide) (by decide) (by decide) (by decide)
    (by decide) (by decide) (by decide) (by decide) (by decide) (by decide) (by decide)
    (by decide) (by decide)
  ⟨by decide, by decide, by decide, by decide, h.1, h.2⟩

/-- On a surface of format `rgb888` (32 bits, 8-bit channels, no alpha mask), after a
whole-surface `fill([r, g, b])` every in-bounds `get_at` returns `[r, g, b, 255]`, except for
black, for which it returns `[0, 0, 0, 0]`. -/
theorem fill_then_getat_rgb888 (base : Env) (surf : SDL_Surface) (r g b x y : Nat)
    (argv : List VALUE) (hfmt : surf.format = rgb888)
    (hr : r ≤ 255) (hg : g ≤ 255) (hb : b ≤ 255)
    (hfr : base.FIX2UINT (.fixnum r) = .ok r) (hfg : base.FIX2UINT (.fixnum g) = .ok g)
    (hfb : base.FIX2UINT (.fixnum b) = .ok b)
    (hx : (x : Int) < surf.w) (hy : (y : Int) < surf.h)
    (hlen : surf.pixels.length = surf.pitch * surf.h.toNat)
    (hpitch : surf.w.toNat * 4 ≤ surf.pitch)
    (hargc : argv.length ≤ 2) (hxy : getat_xy argv = .ok ((x : Int), (y : Int))) :
    (rbgm_surface_getat (Model.env base true) argv
        (rbgm_surface_fill (Model.env base true) [.ary [r, g, b]] surf).1).2
      = .ok (if r = 0 ∧ g = 0 ∧ b = 0 then VALUE.ary [0, 0, 0, 0]
             else VALUE.ary [(r : Int), (g : Int), (b : Int), 255]) := by
  have er : r % 2 ^ 8 = r := Nat.mod_eq_of_lt (by omega)
  have eg : g % 2 ^ 8 = g := Nat.mod_eq_of_lt (by omega)
  have eb : b % 2 ^ 8 = b := Nat.mod_eq_of_lt (by omega)
  have hp := rgb888_pack r g b hg hb
  have hz : (Model.SDL_MapRGB surf.format r g b = 0) ↔ (r = 0 ∧ g = 0 ∧ b = 0) := by
    rw [hfmt, hp]; omega
  rw [fill_rgb_whole (Model.env base true) surf r g b hfr hfg hfb, er, eg, eb]
  have h := getat_after_model_fill base surf none r g b x y argv (by rw [hfmt]; rfl)
    (by rw [hfmt]; decide) (by rw [hfmt]; decide)
    (by rw [hfmt, hp]; show _ < 2 ^ (8 * 4); omega)
    (by rw [hfmt]; exact rgb888_exact r g b hr hg hb) hx hy hlen
    (by rw [hfmt]; exact hpitch) hargc hxy (fun q hq => by cases hq)
  rw [show (Model.env base true).SDL_FillRect = Model.SDL_FillRect base.bigEndian from rfl,
    show (Model.env base true).SDL_MapRGB = Model.SDL_MapRGB from rfl, h]
  by_cases h0 : r = 0 ∧ g = 0 ∧ b = 0
  · rw [if_pos h0, if_pos (hz.mpr h0)]
  · rw [if_neg h0, if_neg (fun hh => h0 (hz.mp hh))]

end Rubygame

